import Mathlib

/-!
Verification of the portfolio-optimization pipeline.

A shallow embedding, over `ℚ`, of the core of the knapsack-style
portfolio-optimization program:

* `src/data_processor.py` — fixed-width COTAHIST tape parsing
  (`CotacaoProcessor.processar_cotahist`) and per-asset risk/return metrics
  (`CotacaoProcessor.calcular_metricas`);
* `src/config.py` — the three scenario presets, embedded as association
  lists mirroring the Python dicts (so that presence/absence of keys, and
  `dict.get` defaults, are modelled faithfully);
* `src/optimizer.py` — the MILP constraint set built by
  `PortfolioOptimizer.construir_modelo`, embedded as a satisfaction
  predicate on variable assignments, and the solution extraction
  `PortfolioOptimizer.extrair_solucao`.

Machine floats of the source are idealized as exact rationals; the special
IEEE values NaN/±inf, which decide pandas' `dropna` row filtering, are
modelled explicitly by the type `PFloat`.
-/

namespace Cotahist

/-- Python `str.startswith(pre)`, on the character lists of the strings. -/
def pyStartswith (s pre : String) : Bool :=
  s.data.take pre.data.length = pre.data

/-- Python slicing `s[a:b]` for `0 ≤ a ≤ b` (the only use in the source). -/
def pySlice (s : String) (a b : Nat) : String :=
  ⟨(s.data.drop a).take (b - a)⟩

/-- Python `str.strip()`: drop leading and trailing whitespace. -/
def pyStrip (s : String) : String :=
  ⟨((s.data.dropWhile Char.isWhitespace).reverse.dropWhile Char.isWhitespace).reverse⟩

/-- Value of a list of decimal digit characters. -/
def natOfDigits (cs : List Char) : ℕ :=
  cs.foldl (fun a c => 10 * a + (c.toNat - 48)) 0

/-- Unsigned decimal numeral: digits with at most one decimal point and at
least one digit in all.  Anything else is `none`. -/
def parseUnsigned (cs : List Char) : Option ℚ :=
  let ip := cs.takeWhile Char.isDigit
  match cs.dropWhile Char.isDigit with
  | [] => if ip.isEmpty then none else some (natOfDigits ip)
  | '.' :: r2 =>
    let fp := r2.takeWhile Char.isDigit
    if (r2.dropWhile Char.isDigit).isEmpty && !(ip.isEmpty && fp.isEmpty) then
      some ((natOfDigits ip : ℚ) + (natOfDigits fp : ℚ) / 10 ^ fp.length)
    else none
  | _ => none

/-- `pd.to_numeric(s, errors="coerce")` on an already-stripped string,
idealized over `ℚ`: an optional sign, then an unsigned decimal numeral.
Content not of that shape — in particular any non-numeric content —
coerces to `none` (the float NaN) instead of raising.  (Exotic float
spellings such as exponents, which never occur in the digit-only COTAHIST
numeric fields, are out of scope.) -/
def toNumericQ (s : String) : Option ℚ :=
  match s.data with
  | '-' :: t => (parseUnsigned t).map (fun q => -q)
  | '+' :: t => parseUnsigned t
  | t => parseUnsigned t

/-- One parsed COTAHIST type-`01` record, after the per-column conversions
`processar_cotahist` applies to the collected DataFrame: the five price
fields and `volume_total` go through `pd.to_numeric(errors="coerce")` and
are divided by 100; `quantidade_negociada` and `total_negocios` go through
`pd.to_numeric` unscaled; every other field is the stripped substring.
`data_pregao` is modelled by its (stripped) `YYYYMMDD` string: the source
converts it with `pd.to_datetime`, an order-isomorphism on well-formed
dates of that format. -/
structure Registro where
  tipo_registro : String
  data_pregao : String
  cod_bdi : String
  ticker : String
  tipo_mercado : String
  nome_empresa : String
  especificacao : String
  prazo_dias : String
  moeda : String
  preco_abertura : Option ℚ
  preco_maximo : Option ℚ
  preco_minimo : Option ℚ
  preco_medio : Option ℚ
  preco_ultimo : Option ℚ
  preco_melhor_compra : String
  preco_melhor_venda : String
  total_negocios : Option ℚ
  quantidade_negociada : Option ℚ
  volume_total : Option ℚ
  preco_exercicio : String
  indicador_correcao : String
  data_vencimento : String
  fator_cotacao : String
  preco_exercicio_pontos : String
  isin : String
  distribuicao : String
deriving DecidableEq, Repr

/-- Strip the substring of `linha` at columns `[a, b)`. -/
def campo (linha : String) (a b : Nat) : String :=
  pyStrip (pySlice linha a b)

/-- A price column: stripped substring, `to_numeric`, divided by 100. -/
def campoPreco (linha : String) (a b : Nat) : Option ℚ :=
  (toNumericQ (campo linha a b)).map (· / 100)

/-- A plain numeric column: stripped substring, `to_numeric`, no scale. -/
def campoNum (linha : String) (a b : Nat) : Option ℚ :=
  toNumericQ (campo linha a b)

/-- Decode one line at the schema-fixed offsets of `colunas_spec`. -/
def registroDeLinha (linha : String) : Registro where
  tipo_registro := campo linha 0 2
  data_pregao := campo linha 2 10
  cod_bdi := campo linha 10 12
  ticker := campo linha 12 24
  tipo_mercado := campo linha 24 27
  nome_empresa := campo linha 27 39
  especificacao := campo linha 39 49
  prazo_dias := campo linha 49 52
  moeda := campo linha 52 56
  preco_abertura := campoPreco linha 56 69
  preco_maximo := campoPreco linha 69 82
  preco_minimo := campoPreco linha 82 95
  preco_medio := campoPreco linha 95 108
  preco_ultimo := campoPreco linha 108 121
  preco_melhor_compra := campo linha 121 134
  preco_melhor_venda := campo linha 134 147
  total_negocios := campoNum linha 147 152
  quantidade_negociada := campoNum linha 152 170
  volume_total := campoPreco linha 170 188
  preco_exercicio := campo linha 188 201
  indicador_correcao := campo linha 201 202
  data_vencimento := campo linha 202 210
  fator_cotacao := campo linha 210 217
  preco_exercicio_pontos := campo linha 217 230
  isin := campo linha 230 242
  distribuicao := campo linha 242 245

/-- The per-line branch of the reading loop: header (`00`) and trailer
(`99`) lines are skipped, type-`01` lines produce one record, anything
else falls through producing nothing. -/
def processarLinha (linha : String) : Option Registro :=
  if pyStartswith linha "00" || pyStartswith linha "99" then none
  else if pyStartswith linha "01" then some (registroDeLinha linha)
  else none

/-- `(data_pregao, ticker)` sort key order used by
`df.sort_values(["data_pregao", "ticker"])`; on well-formed `YYYYMMDD`
strings the datetime order of the source coincides with string order. -/
def regLe (r s : Registro) : Bool :=
  r.data_pregao < s.data_pregao ||
    (r.data_pregao = s.data_pregao && r.ticker ≤ s.ticker)

/-- Insert into a sorted list (stable, as `sort_values` is). -/
def insertReg (r : Registro) : List Registro → List Registro
  | [] => [r]
  | s :: t => if regLe r s then r :: s :: t else s :: insertReg r t

/-- Stable insertion sort by `(data_pregao, ticker)`. -/
def sortRegs : List Registro → List Registro
  | [] => []
  | r :: t => insertReg r (sortRegs t)

/-- `CotacaoProcessor.processar_cotahist`, at the level of one run over the
file's lines: collect one record per type-`01` line, convert the numeric
columns (folded into `registroDeLinha`), sort by `(data_pregao, ticker)`. -/
def processarCotahist (linhas : List String) : List Registro :=
  sortRegs (linhas.filterMap processarLinha)

end Cotahist

namespace Metricas

/-- A machine float idealized as an exact rational together with the IEEE
special values that the metrics pipeline can actually produce and that
drive pandas' `dropna`: NaN and the two infinities. -/
inductive PFloat where
  | nan : PFloat
  | pinf : PFloat
  | ninf : PFloat
  | fin : ℚ → PFloat
deriving DecidableEq, Repr

/-- Only NaN counts as missing for `dropna`; the infinities do not. -/
def PFloat.isNaN : PFloat → Bool
  | .nan => true
  | _ => false

/-- IEEE division on `PFloat`, the operation behind
`sharpe_ratio = retorno_esperado / desvio_padrao`: finite/0 is ±inf for a
nonzero numerator and NaN for 0/0 — pandas raises no error here. -/
def PFloat.divF : PFloat → PFloat → PFloat
  | .nan, _ => .nan
  | _, .nan => .nan
  | .fin x, .fin y =>
    if y ≠ 0 then .fin (x / y)
    else if x = 0 then .nan
    else if 0 < x then .pinf else .ninf
  | .fin _, .pinf => .fin 0
  | .fin _, .ninf => .fin 0
  | .pinf, .fin y => if 0 ≤ y then .pinf else .ninf
  | .ninf, .fin y => if 0 ≤ y then .ninf else .pinf
  | .pinf, .pinf => .nan
  | .pinf, .ninf => .nan
  | .ninf, .pinf => .nan
  | .ninf, .ninf => .nan

/-- One ticker column of the inputs `calcular_metricas` reads: its daily
log-return column from `df_retornos` (`none` marks a NaN cell of the
pivoted matrix), and the per-ticker aggregates taken from `df_acoes` —
`groupby("ticker")["preco_ultimo"].last()`, `["volume_total"].mean()` and
`["nome_empresa"].first()`.  Log returns are taken as given data: `np.log`
has no exact image in `ℚ`, and every claim quantifies over the returns
themselves. -/
structure TickerData where
  ticker : String
  retornos : List (Option ℚ)
  preco_ultimo : Option ℚ
  volume_medio : Option ℚ
  nome_empresa : String
deriving DecidableEq, Repr

/-- The non-NaN observations of a column (pandas aggregations skip NaN). -/
def obs (xs : List (Option ℚ)) : List ℚ := xs.filterMap id

/-- Mean of a list of rationals (0/0 = 0 never reached by callers). -/
def meanQ (v : List ℚ) : ℚ := v.sum / v.length

/-- `Series.mean()` with NaN skipping: NaN on an all-NaN/empty column. -/
def mediaColuna (xs : List (Option ℚ)) : PFloat :=
  if (obs xs).isEmpty then .nan else .fin (meanQ (obs xs))

/-- Sample variance (`ddof = 1`, as `Series.std()` uses) of a column with
NaN skipping: NaN on fewer than two observations. -/
def varColuna (xs : List (Option ℚ)) : PFloat :=
  let v := obs xs
  if v.length < 2 then .nan
  else .fin (((v.map fun x => (x - meanQ v) ^ 2).sum) / ((v.length : ℚ) - 1))

/-- One row of the metrics frame `calcular_metricas` builds.  The source's
`desvio_padrao` is `std() * sqrt(252)`; its square `252 * var` is recorded
(field `desvio_padrao_sq`) because the square root of a rational has no
exact image in `ℚ`.  Squaring transfers every claim made here: `x ↦ √x` is
a strictly monotone bijection of `[0, ∞)` fixing `0` and mapping NaN to
NaN, so the volatility is zero / positive / NaN exactly when its square
is.  Likewise `sharpe_ratio` is recorded as `(252·mean) / (252·var)`
instead of `(252·mean) / √(252·var)`: the two have the same sign, the same
NaN-status and the same infinity-status — which is all `dropna`, and every
claim, looks at. -/
structure MetricaAtivo where
  ticker : String
  retorno_esperado : PFloat
  desvio_padrao_sq : PFloat
  sharpe_ratio : PFloat
  preco_atual : Option ℚ
  volume_medio : Option ℚ
  nome_empresa : String
deriving DecidableEq, Repr

/-- `retorno_esperado = df_retornos.mean() * 252`. -/
def retornoEsperado (xs : List (Option ℚ)) : PFloat :=
  match mediaColuna xs with
  | .fin m => .fin (252 * m)
  | f => f

/-- Square of `desvio_padrao = df_retornos.std() * sqrt(252)`. -/
def desvioPadraoSq (xs : List (Option ℚ)) : PFloat :=
  match varColuna xs with
  | .fin v => .fin (252 * v)
  | f => f

/-- The row built for one ticker before the `dropna` filter. -/
def linhaMetrica (td : TickerData) : MetricaAtivo where
  ticker := td.ticker
  retorno_esperado := retornoEsperado td.retornos
  desvio_padrao_sq := desvioPadraoSq td.retornos
  sharpe_ratio := (retornoEsperado td.retornos).divF (desvioPadraoSq td.retornos)
  preco_atual := td.preco_ultimo
  volume_medio := td.volume_medio
  nome_empresa := td.nome_empresa

/-- `metricas.dropna()` keeps a row iff none of its values is missing:
no NaN among the float columns, and a defined price and volume.  Infinite
values (a zero-volatility Sharpe) are not missing and are kept. -/
def linhaCompleta (m : MetricaAtivo) : Bool :=
  !m.retorno_esperado.isNaN && !m.desvio_padrao_sq.isNaN &&
    !m.sharpe_ratio.isNaN && !m.preco_atual.isNone && !m.volume_medio.isNone

/-- `CotacaoProcessor.calcular_metricas`: build the per-ticker metric rows
and drop the incomplete ones. -/
def calcularMetricas (tds : List TickerData) : List MetricaAtivo :=
  (tds.map linhaMetrica).filter linhaCompleta

end Metricas

namespace Config

/-- A value of a scenario-configuration dict: the presets hold numbers
(ints and floats, both exact in `ℚ`) and booleans. -/
inductive CVal where
  | q : ℚ → CVal
  | b : Bool → CVal
deriving DecidableEq, Repr

/-- A scenario configuration is a Python dict, modelled as an association
list so that key presence and insertion order are preserved. -/
def Cfg : Type := List (String × CVal)

/-- `cfg[k]` / `cfg.get(k)`: the value at a key, if present. -/
def cfgLookup (cfg : Cfg) (k : String) : Option CVal :=
  (cfg.find? (fun e => e.1 = k)).map (·.2)

/-- The keys of a configuration dict. -/
def cfgKeys (cfg : Cfg) : List String := cfg.map (·.1)

/-- Numeric value at a key, if present with a numeric value. -/
def getQ (cfg : Cfg) (k : String) : Option ℚ :=
  match cfgLookup cfg k with
  | some (.q x) => some x
  | _ => none

/-- `cfg.get(k, d)` for a numeric default. -/
def getQD (cfg : Cfg) (k : String) (d : ℚ) : ℚ := (getQ cfg k).getD d

/-- Python truthiness of a config value, as `if config.get(...)` tests it:
a boolean is itself, a number is truthy iff nonzero. -/
def pyTruthy : CVal → Bool
  | .b x => x
  | .q x => x ≠ 0

/-- `cfg.get(k, d)` used as a condition. -/
def getBoolD (cfg : Cfg) (k : String) (d : Bool) : Bool :=
  match cfgLookup cfg k with
  | some v => pyTruthy v
  | none => d

/-- `CENARIO_CONSERVADOR` of `src/config.py`. -/
def CENARIO_CONSERVADOR : Cfg :=
  [("orcamento", .q 100000),
   ("risco_maximo", .q (25 / 100)),
   ("retorno_minimo", .q (8 / 100)),
   ("num_ativos_min", .q 10),
   ("num_ativos_max", .q 20),
   ("diversificacao_setor", .b true),
   ("alpha_setor_min", .q 0),
   ("alpha_setor_max", .q (25 / 100)),
   ("num_setores_min", .q 4),
   ("max_ativo_pct", .q (20 / 100)),
   ("excluir_retorno_negativo", .b true)]

/-- `CENARIO_MODERADO` of `src/config.py`. -/
def CENARIO_MODERADO : Cfg :=
  [("orcamento", .q 100000),
   ("risco_maximo", .q (35 / 100)),
   ("retorno_minimo", .q (12 / 100)),
   ("num_ativos_min", .q 5),
   ("num_ativos_max", .q 15),
   ("diversificacao_setor", .b true),
   ("alpha_setor_min", .q 0),
   ("alpha_setor_max", .q (35 / 100)),
   ("num_setores_min", .q 3),
   ("max_ativo_pct", .q (40 / 100))]

/-- `CENARIO_AGRESSIVO` of `src/config.py`. -/
def CENARIO_AGRESSIVO : Cfg :=
  [("orcamento", .q 100000),
   ("risco_maximo", .q (50 / 100)),
   ("retorno_minimo", .q (18 / 100)),
   ("num_ativos_min", .q 3),
   ("num_ativos_max", .q 10),
   ("diversificacao_setor", .b true),
   ("alpha_setor_min", .q 0),
   ("alpha_setor_max", .q 1),
   ("num_setores_min", .q 2),
   ("max_ativo_pct", .q (60 / 100))]

end Config

namespace Otimizador

open Config

/-- One row of the metrics frame as `PortfolioOptimizer` consumes it
(`self.metricas`): the index entry (ticker) and the columns
`construir_modelo` and `extrair_solucao` read.  The rationals are the
realized float values of the pipeline, exact here. -/
structure Ativo where
  ticker : String
  retorno_esperado : ℚ
  desvio_padrao : ℚ
  preco_atual : ℚ
  setor : String
  nome_empresa : String
  sharpe_ratio : ℚ
deriving DecidableEq, Repr

/-- The scalar parameters `construir_modelo` draws from the config dict:
the five mandatory keys (a missing one is a `KeyError`, hence `Option`),
and the optional keys with the `dict.get` defaults of the source. -/
structure Params where
  orcamento : ℚ
  risco_maximo : ℚ
  retorno_minimo : ℚ
  num_ativos_min : ℚ
  num_ativos_max : ℚ
  diversificacao_setor : Bool
  alpha_setor_min : ℚ
  alpha_setor_max : ℚ
  num_setores_min : ℚ
  max_ativo_pct : ℚ
  excluir_retorno_negativo : Bool
deriving DecidableEq, Repr

/-- Read the model parameters off a config dict exactly as
`construir_modelo` does: `config["..."]` for the five mandatory keys,
`config.get("...", default)` for the rest. -/
def construirParams (cfg : Cfg) : Option Params := do
  let B ← getQ cfg "orcamento"
  let R ← getQ cfg "risco_maximo"
  let T ← getQ cfg "retorno_minimo"
  let Lmin ← getQ cfg "num_ativos_min"
  let Lmax ← getQ cfg "num_ativos_max"
  pure
    { orcamento := B
      risco_maximo := R
      retorno_minimo := T
      num_ativos_min := Lmin
      num_ativos_max := Lmax
      diversificacao_setor := getBoolD cfg "diversificacao_setor" false
      alpha_setor_min := getQD cfg "alpha_setor_min" 0
      alpha_setor_max := getQD cfg "alpha_setor_max" (3 / 10)
      num_setores_min := getQD cfg "num_setores_min" 1
      max_ativo_pct := getQD cfg "max_ativo_pct" 1
      excluir_retorno_negativo := getBoolD cfg "excluir_retorno_negativo" true }

/-- Python `int(q)`: truncation toward zero. -/
def pyInt (q : ℚ) : ℤ :=
  if q < 0 then -Int.floor (-q) else Int.floor q

/-- Python `round(q)` (round half to even), as `int(round(y))` uses it. -/
def pyRound (q : ℚ) : ℤ :=
  let f := Int.floor q
  let r := q - f
  if r < 1 / 2 then f
  else if 1 / 2 < r then f + 1
  else if f % 2 = 0 then f else f + 1

/-- `min(preco.values())` over the asset universe (0 only when empty, a
case the source guards with `if preco else 1000`). -/
def minPreco : List Ativo → ℚ
  | [] => 0
  | [a] => a.preco_atual
  | a :: b :: t => min a.preco_atual (minPreco (b :: t))

/-- The single global big-M bound on lot counts:
`max_lotes = int(B / min(preco.values())) if preco else 1000`. -/
def maxLotes (B : ℚ) (U : List Ativo) : ℤ :=
  if U.isEmpty then 1000 else pyInt (B / minPreco U)

/-- `Σ_i preco_i · y_i` over a list of assets. -/
def invSum (U : List Ativo) (yv : String → ℚ) : ℚ :=
  (U.map fun a => a.preco_atual * yv a.ticker).sum

/-- `Σ_i retorno_i · preco_i · y_i` (the objective and return-floor sum). -/
def retSum (U : List Ativo) (yv : String → ℚ) : ℚ :=
  (U.map fun a => a.retorno_esperado * a.preco_atual * yv a.ticker).sum

/-- `Σ_i desvio_i · preco_i · y_i` (the risk sum). -/
def riscoSum (U : List Ativo) (yv : String → ℚ) : ℚ :=
  (U.map fun a => a.desvio_padrao * a.preco_atual * yv a.ticker).sum

/-- `Σ_i x_i` (the cardinality sum). -/
def cardSum (U : List Ativo) (xv : String → ℚ) : ℚ :=
  (U.map fun a => xv a.ticker).sum

/-- `self.metricas["setor"].unique()`: the distinct sectors in first-
occurrence order. -/
def setoresDe (U : List Ativo) : List String :=
  U.foldl (fun acc a => if a.setor ∈ acc then acc else acc ++ [a.setor]) []

/-- The assets of one sector (`self.metricas[self.metricas["setor"] == s]`). -/
def ativosSetor (U : List Ativo) (s : String) : List Ativo :=
  U.filter fun a => a.setor = s

/-- `investimento_setor`: `Σ_{i ∈ I_s} preco_i · y_i`. -/
def invSetor (U : List Ativo) (yv : String → ℚ) (s : String) : ℚ :=
  invSum (ativosSetor U s) yv

/-- A variable assignment satisfies the model `construir_modelo` builds.
`xv`, `yv`, `zv` give the values of the decision variables `x`, `y`,
`z_setor`, keyed like the Gurobi variables by the metrics index (ticker)
and by sector.  The first two conjuncts are the variable declarations
(`x` binary; `y` integer with lower bound 0 — `den = 1` states
integrality in `ℚ`); the rest are the `addConstr` calls in source order.
A solver status of `OPTIMAL` or `TIME_LIMIT` returns an assignment
satisfying exactly these constraints (idealizing the solver's numeric
tolerances to exact arithmetic). -/
def SatisfiesModel (P : Params) (U : List Ativo)
    (xv yv zv : String → ℚ) : Prop :=
  (∀ a ∈ U, xv a.ticker = 0 ∨ xv a.ticker = 1) ∧
  (∀ a ∈ U, 0 ≤ yv a.ticker ∧ (yv a.ticker).den = 1) ∧
  invSum U yv ≤ P.orcamento ∧
  riscoSum U yv - P.risco_maximo * invSum U yv ≤ 0 ∧
  retSum U yv - P.retorno_minimo * invSum U yv ≥ 0 ∧
  P.num_ativos_min ≤ cardSum U xv ∧
  cardSum U xv ≤ P.num_ativos_max ∧
  (P.diversificacao_setor = true →
    (∀ s ∈ setoresDe U, zv s = 0 ∨ zv s = 1) ∧
    (∀ s ∈ setoresDe U,
      invSetor U yv s ≤ P.alpha_setor_max * P.orcamento ∧
      invSetor U yv s ≤ P.orcamento * zv s ∧
      (0 < P.alpha_setor_min →
        invSetor U yv s ≥ P.alpha_setor_min * P.orcamento * zv s)) ∧
    ((setoresDe U).map zv).sum ≥ P.num_setores_min) ∧
  (P.max_ativo_pct < 1 →
    ∀ a ∈ U, a.preco_atual * yv a.ticker ≤ P.max_ativo_pct * P.orcamento) ∧
  (P.excluir_retorno_negativo = true →
    ∀ a ∈ U, a.retorno_esperado < 0 → yv a.ticker = 0) ∧
  (∀ a ∈ U,
    yv a.ticker ≤ (maxLotes P.orcamento U : ℚ) * xv a.ticker ∧
    yv a.ticker ≥ 1 * xv a.ticker)

/-- One row of the `carteira` DataFrame `extrair_solucao` assembles. -/
structure ItemCarteira where
  ticker : String
  nome : String
  setor : String
  preco : ℚ
  quantidade : ℤ
  investimento : ℚ
  retorno_esperado : ℚ
  desvio_padrao : ℚ
  sharpe_ratio : ℚ
deriving DecidableEq, Repr

/-- The extracted solution dict (the solver metadata entries
`funcao_objetivo`, `gap`, `tempo_exec`, echoed verbatim from the solver
object, are not modelled). -/
structure Solucao where
  carteira : List ItemCarteira
  num_ativos : ℕ
  retorno_total : ℚ
  risco_total : ℚ
  sharpe_carteira : ℚ
  investimento_total : ℚ
deriving DecidableEq, Repr

/-- The selected assets: `x_vars[i].X > 0.5`. -/
def selecionados (U : List Ativo) (xv : String → ℚ) : List Ativo :=
  U.filter fun a => xv a.ticker > 1 / 2

/-- The `carteira` row of one selected asset: the realized quantity is
`int(round(y))`, the investment `quantidade * preco_unitario`. -/
def itemDe (a : Ativo) (yv : String → ℚ) : ItemCarteira where
  ticker := a.ticker
  nome := a.nome_empresa
  setor := a.setor
  preco := a.preco_atual
  quantidade := pyRound (yv a.ticker)
  investimento := (pyRound (yv a.ticker) : ℚ) * a.preco_atual
  retorno_esperado := a.retorno_esperado
  desvio_padrao := a.desvio_padrao
  sharpe_ratio := a.sharpe_ratio

/-- `PortfolioOptimizer.extrair_solucao`.  When no asset is selected,
`carteira` is the empty list and `pd.DataFrame([])` is an empty frame with
no columns at all, so the column access `df_carteira["investimento"]`
raises a `KeyError` — modelled as the `Except.error` branch.  Otherwise
`investimento_total` sums the realized (rounded) investments, while the
weighted return and risk numerators use the raw solver values
`y_vars[i].X`, each guarded by `if investimento_total > 0 else 0`. -/
def extrairSolucao (U : List Ativo) (xv yv : String → ℚ) :
    Except String Solucao :=
  let sel := selecionados U xv
  let carteira := sel.map (itemDe · yv)
  if carteira.isEmpty then
    .error "KeyError: investimento"
  else
    let total := (carteira.map (·.investimento)).sum
    let retorno :=
      if total > 0 then
        (sel.map fun a => a.retorno_esperado * a.preco_atual * yv a.ticker).sum
          / total
      else 0
    let risco :=
      if total > 0 then
        (sel.map fun a => a.desvio_padrao * a.preco_atual * yv a.ticker).sum
          / total
      else 0
    .ok
      { carteira := carteira
        num_ativos := sel.length
        retorno_total := retorno
        risco_total := risco
        sharpe_carteira := if risco > 0 then retorno / risco else 0
        investimento_total := total }

end Otimizador

namespace Exemplos

open Config Metricas Otimizador

/-- A small scenario dict with every key present, sector diversification on,
`alpha_setor_min = 0`, and at least 2 sectors required. -/
def cfgSetorial : Cfg :=
  [("orcamento", .q 1000),
   ("risco_maximo", .q 1),
   ("retorno_minimo", .q 0),
   ("num_ativos_min", .q 1),
   ("num_ativos_max", .q 2),
   ("diversificacao_setor", .b true),
   ("alpha_setor_min", .q 0),
   ("alpha_setor_max", .q 1),
   ("num_setores_min", .q 2),
   ("max_ativo_pct", .q 1),
   ("excluir_retorno_negativo", .b true)]

/-- The parameters `construir_modelo` reads off `cfgSetorial`. -/
def paramsSetorial : Params where
  orcamento := 1000
  risco_maximo := 1
  retorno_minimo := 0
  num_ativos_min := 1
  num_ativos_max := 2
  diversificacao_setor := true
  alpha_setor_min := 0
  alpha_setor_max := 1
  num_setores_min := 2
  max_ativo_pct := 1
  excluir_retorno_negativo := true

/-- A financial-sector asset. -/
def ativoFinanceiro : Ativo where
  ticker := "AAAA3"
  retorno_esperado := 1 / 10
  desvio_padrao := 1 / 10
  preco_atual := 10
  setor := "Financeiro"
  nome_empresa := "Empresa A"
  sharpe_ratio := 1

/-- An energy-sector asset. -/
def ativoEnergia : Ativo where
  ticker := "BBBB3"
  retorno_esperado := 1 / 10
  desvio_padrao := 1 / 10
  preco_atual := 10
  setor := "Energia"
  nome_empresa := "Empresa B"
  sharpe_ratio := 1

/-- A two-asset, two-sector universe. -/
def universoSetorial : List Ativo := [ativoFinanceiro, ativoEnergia]

/-- Selection that picks only the financial asset. -/
def xvSetorial : String → ℚ := fun t => if t = "AAAA3" then 1 else 0

/-- One lot of the financial asset, nothing else. -/
def yvSetorial : String → ℚ := fun t => if t = "AAAA3" then 1 else 0

/-- Both sector-activation variables set to 1. -/
def umAssign : String → ℚ := fun _ => 1

/-- The constant-zero assignment. -/
def zeroAssign : String → ℚ := fun _ => 0

/-- A loss-making asset (negative expected return). -/
def ativoPrejuizo : Ativo where
  ticker := "CCCC3"
  retorno_esperado := -(1 / 10)
  desvio_padrao := 1 / 10
  preco_atual := 10
  setor := "Outros"
  nome_empresa := "Empresa C"
  sharpe_ratio := -1

/-- A universe containing only the loss-making asset. -/
def universoPrejuizo : List Ativo := [ativoPrejuizo]

/-- Parameters that admit the empty portfolio (`num_ativos_min = 0`) and
hard-exclude negative-return assets, so that the all-zero assignment is the
only feasible (hence optimal) one on `universoPrejuizo`. -/
def paramsFolgado : Params where
  orcamento := 1000
  risco_maximo := 0
  retorno_minimo := 0
  num_ativos_min := 0
  num_ativos_max := 5
  diversificacao_setor := false
  alpha_setor_min := 0
  alpha_setor_max := 3 / 10
  num_setores_min := 1
  max_ativo_pct := 1
  excluir_retorno_negativo := true

/-- A scenario dict with only the mandatory keys, sector diversification
off, and no `excluir_retorno_negativo` key at all. -/
def cfgPadrao : Cfg :=
  [("orcamento", .q 1000),
   ("risco_maximo", .q 1),
   ("retorno_minimo", .q 0),
   ("num_ativos_min", .q 1),
   ("num_ativos_max", .q 3),
   ("diversificacao_setor", .b false),
   ("max_ativo_pct", .q 1)]

/-- The parameters `construir_modelo` reads off `cfgPadrao` (the absent
optional keys fall back to the `dict.get` defaults). -/
def paramsPadrao : Params where
  orcamento := 1000
  risco_maximo := 1
  retorno_minimo := 0
  num_ativos_min := 1
  num_ativos_max := 3
  diversificacao_setor := false
  alpha_setor_min := 0
  alpha_setor_max := 3 / 10
  num_setores_min := 1
  max_ativo_pct := 1
  excluir_retorno_negativo := true

/-- A profitable asset. -/
def ativoLucro : Ativo where
  ticker := "EEEE3"
  retorno_esperado := 1 / 10
  desvio_padrao := 1 / 10
  preco_atual := 10
  setor := "Financeiro"
  nome_empresa := "Empresa E"
  sharpe_ratio := 1

/-- A falling asset (negative expected return). -/
def ativoQueda : Ativo where
  ticker := "FFFF3"
  retorno_esperado := -(1 / 10)
  desvio_padrao := 1 / 10
  preco_atual := 10
  setor := "Energia"
  nome_empresa := "Empresa F"
  sharpe_ratio := -1

/-- A two-asset universe with one profitable and one falling asset. -/
def universoPadrao : List Ativo := [ativoLucro, ativoQueda]

/-- Selection of the profitable asset only. -/
def xvPadrao : String → ℚ := fun t => if t = "EEEE3" then 1 else 0

/-- One lot of the profitable asset, nothing else. -/
def yvPadrao : String → ℚ := fun t => if t = "EEEE3" then 1 else 0

/-- The solution `extrair_solucao` produces on that assignment. -/
def solPadrao : Solucao where
  carteira :=
    [{ ticker := "EEEE3"
       nome := "Empresa E"
       setor := "Financeiro"
       preco := 10
       quantidade := 1
       investimento := 10
       retorno_esperado := 1 / 10
       desvio_padrao := 1 / 10
       sharpe_ratio := 1 }]
  num_ativos := 1
  retorno_total := 1 / 10
  risco_total := 1 / 10
  sharpe_carteira := 1
  investimento_total := 10

/-- A ticker whose two daily log returns are identical and nonzero: its
sample variance is 0 while its mean is not. -/
def tickerConstante : TickerData where
  ticker := "DDDD3"
  retornos := [some (1 / 100), some (1 / 100)]
  preco_ultimo := some 10
  volume_medio := some 50000
  nome_empresa := "Empresa D"

end Exemplos

namespace Otimizador

lemma den_one_cast {q : ℚ} (h : q.den = 1) : (q.num : ℚ) = q := by
  conv_rhs => rw [← Rat.num_div_den q]
  rw [h]
  norm_num

lemma pyRound_den_one {q : ℚ} (h : q.den = 1) : (pyRound q : ℚ) = q := by
  have hq : (q.num : ℚ) = q := den_one_cast h
  have hf : Int.floor q = q.num := by
    conv_lhs => rw [← hq]
    exact Int.floor_intCast q.num
  have hr : q - (Int.floor q : ℚ) = 0 := by rw [hf, hq, sub_self]
  simp only [pyRound, hr, hf]
  norm_num [hq]

lemma sum_map_filter_of_zero (g : Ativo → ℚ) (p : Ativo → Bool) :
    ∀ U : List Ativo, (∀ a ∈ U, p a = false → g a = 0) →
      ((U.filter p).map g).sum = (U.map g).sum
  | [], _ => rfl
  | a :: t, h => by
    have ht := sum_map_filter_of_zero g p t fun b hb hpb =>
      h b (List.mem_cons_of_mem a hb) hpb
    by_cases hp : p a
    · rw [List.filter_cons_of_pos hp]
      simp only [List.map_cons, List.sum_cons, ht]
    · rw [List.filter_cons_of_neg (by simpa using hp)]
      have h0 : g a = 0 := h a (List.mem_cons_self a t) (by simpa using hp)
      simp only [List.map_cons, List.sum_cons, ht, h0, zero_add]

lemma list_sum_pos_of_mem {l : List ℚ} (h0 : ∀ x ∈ l, 0 ≤ x) {x : ℚ}
    (hx : x ∈ l) (hpos : 0 < x) : 0 < l.sum := by
  obtain ⟨s, t, rfl⟩ := List.append_of_mem hx
  rw [List.sum_append, List.sum_cons]
  have hs : 0 ≤ s.sum := List.sum_nonneg fun y hy => h0 y (by simp [hy])
  have ht : 0 ≤ t.sum := List.sum_nonneg fun y hy => h0 y (by simp [hy])
  linarith

lemma cardSum_eq_card (xv : String → ℚ) :
    ∀ U : List Ativo, (∀ a ∈ U, xv a.ticker = 0 ∨ xv a.ticker = 1) →
      cardSum U xv = ((selecionados U xv).length : ℚ)
  | [], _ => rfl
  | a :: t, h => by
    have ht := cardSum_eq_card xv t fun b hb => h b (List.mem_cons_of_mem a hb)
    have hcard : cardSum (a :: t) xv = xv a.ticker + cardSum t xv := by
      simp [cardSum]
    rcases h a (List.mem_cons_self a t) with h0 | h1
    · have hns : ¬((1 : ℚ) / 2 < xv a.ticker) := by rw [h0]; norm_num
      have : selecionados (a :: t) xv = selecionados t xv := by
        unfold selecionados
        rw [List.filter_cons_of_neg (by simpa using hns)]
      rw [hcard, this, h0, zero_add, ht]
    · have hs : (1 : ℚ) / 2 < xv a.ticker := by rw [h1]; norm_num
      have : selecionados (a :: t) xv = a :: selecionados t xv := by
        unfold selecionados
        rw [List.filter_cons_of_pos (by simpa using hs)]
      rw [hcard, this, h1, ht, List.length_cons]
      push_cast
      ring

lemma y_zero_of_not_selected {P : Params} {U : List Ativo}
    {xv yv zv : String → ℚ} (hsat : SatisfiesModel P U xv yv zv)
    {a : Ativo} (ha : a ∈ U) (hns : ¬((1 : ℚ) / 2 < xv a.ticker)) :
    yv a.ticker = 0 := by
  obtain ⟨hbin, hint, -, -, -, -, -, -, -, -, hcons⟩ := hsat
  have hx0 : xv a.ticker = 0 := by
    rcases hbin a ha with h | h
    · exact h
    · exact absurd (by rw [h]; norm_num) hns
  have h1 := (hcons a ha).1
  rw [hx0, mul_zero] at h1
  exact le_antisymm h1 (hint a ha).1

lemma x_one_of_selected {P : Params} {U : List Ativo}
    {xv yv zv : String → ℚ} (hsat : SatisfiesModel P U xv yv zv)
    {a : Ativo} (ha : a ∈ U) (hs : (1 : ℚ) / 2 < xv a.ticker) :
    xv a.ticker = 1 := by
  rcases hsat.1 a ha with h | h
  · rw [h] at hs
    norm_num at hs
  · exact h

lemma y_ge_one_of_selected {P : Params} {U : List Ativo}
    {xv yv zv : String → ℚ} (hsat : SatisfiesModel P U xv yv zv)
    {a : Ativo} (ha : a ∈ U) (hs : (1 : ℚ) / 2 < xv a.ticker) :
    1 ≤ yv a.ticker := by
  have hx1 := x_one_of_selected hsat ha hs
  have h2 := (hsat.2.2.2.2.2.2.2.2.2.2 a ha).2
  rw [hx1, mul_one] at h2
  exact h2

end Otimizador

namespace Otimizador

lemma extrairSolucao_eq_ok {U : List Ativo} {xv yv : String → ℚ}
    {sol : Solucao} (h : extrairSolucao U xv yv = .ok sol) :
    selecionados U xv ≠ [] ∧
    sol.num_ativos = (selecionados U xv).length ∧
    sol.investimento_total =
      (((selecionados U xv).map (itemDe · yv)).map (fun it => it.investimento)).sum ∧
    sol.retorno_total =
      (if sol.investimento_total > 0 then
        ((selecionados U xv).map fun a =>
          a.retorno_esperado * a.preco_atual * yv a.ticker).sum /
          sol.investimento_total
      else 0) ∧
    sol.risco_total =
      (if sol.investimento_total > 0 then
        ((selecionados U xv).map fun a =>
          a.desvio_padrao * a.preco_atual * yv a.ticker).sum /
          sol.investimento_total
      else 0) := by
  unfold extrairSolucao at h
  by_cases hemp : ((selecionados U xv).map (itemDe · yv)).isEmpty
  · rw [if_pos hemp] at h
    exact absurd h (by simp)
  · rw [if_neg hemp] at h
    have hsel : selecionados U xv ≠ [] := by
      intro hnil
      rw [hnil] at hemp
      exact hemp rfl
    cases Except.ok.inj h
    exact ⟨hsel, rfl, rfl, rfl, rfl⟩

end Otimizador

namespace Otimizador

lemma carteira_investimentos {P : Params} {U : List Ativo}
    {xv yv zv : String → ℚ} (hsat : SatisfiesModel P U xv yv zv) :
    ((selecionados U xv).map (itemDe · yv)).map (fun it => it.investimento) =
      (selecionados U xv).map (fun a => a.preco_atual * yv a.ticker) := by
  rw [List.map_map]
  refine List.map_congr_left fun a ha => ?_
  have haU : a ∈ U := (List.mem_filter.mp ha).1
  have hden := (hsat.2.1 a haU).2
  simp only [Function.comp, itemDe]
  rw [pyRound_den_one hden, mul_comm]

lemma sel_sum_eq_full {P : Params} {U : List Ativo}
    {xv yv zv : String → ℚ} (hsat : SatisfiesModel P U xv yv zv)
    (g : Ativo → ℚ) (hg : ∀ a ∈ U, yv a.ticker = 0 → g a = 0) :
    ((selecionados U xv).map g).sum = (U.map g).sum := by
  unfold selecionados
  refine sum_map_filter_of_zero g _ U fun a ha hp => ?_
  have hns : ¬((1 : ℚ) / 2 < xv a.ticker) := of_decide_eq_false hp
  exact hg a ha (y_zero_of_not_selected hsat ha hns)

lemma total_positivo {P : Params} {U : List Ativo}
    {xv yv zv : String → ℚ} (hsat : SatisfiesModel P U xv yv zv)
    (hpos : ∀ a ∈ U, 0 < a.preco_atual)
    (hne : selecionados U xv ≠ []) :
    0 < ((selecionados U xv).map (fun a => a.preco_atual * yv a.ticker)).sum := by
  obtain ⟨a₀, ha₀⟩ := List.exists_mem_of_ne_nil _ hne
  have ha₀U : a₀ ∈ U := (List.mem_filter.mp ha₀).1
  have hx := of_decide_eq_true (List.mem_filter.mp ha₀).2
  refine list_sum_pos_of_mem ?_ (List.mem_map_of_mem _ ha₀) ?_
  · intro x hx
    obtain ⟨b, hb, rfl⟩ := List.mem_map.mp hx
    have hbU : b ∈ U := (List.mem_filter.mp hb).1
    exact mul_nonneg (le_of_lt (hpos b hbU)) (hsat.2.1 b hbU).1
  · have h1 : 1 ≤ yv a₀.ticker := y_ge_one_of_selected hsat ha₀U hx
    exact mul_pos (hpos a₀ ha₀U) (lt_of_lt_of_le one_pos h1)

end Otimizador

namespace Otimizador

/-- C1: for every scenario configuration and asset universe, whenever the
solver hands back an assignment satisfying the model of
`construir_modelo` (as it does on an `OPTIMAL` or `TIME_LIMIT` status) and
`extrair_solucao` returns an `OptimizationResult`, that result has
`num_ativos` between `num_ativos_min` and `num_ativos_max`, a total
investment within the budget, a realized weighted risk at most
`risco_maximo`, and a realized weighted return at least `retorno_minimo`
(the realized weighted metrics being the ones the extractor computes). -/
theorem claim_C1_result_bounds {P : Params} {U : List Ativo}
    {xv yv zv : String → ℚ} {sol : Solucao}
    (hsat : SatisfiesModel P U xv yv zv)
    (hpos : ∀ a ∈ U, 0 < a.preco_atual)
    (hok : extrairSolucao U xv yv = .ok sol) :
    P.num_ativos_min ≤ (sol.num_ativos : ℚ) ∧
    (sol.num_ativos : ℚ) ≤ P.num_ativos_max ∧
    sol.investimento_total ≤ P.orcamento ∧
    sol.risco_total ≤ P.risco_maximo ∧
    P.retorno_minimo ≤ sol.retorno_total := by
  obtain ⟨hne, hnum, hinv, hret, hris⟩ := extrairSolucao_eq_ok hok
  have hcard := cardSum_eq_card xv U hsat.1
  have hselsum : sol.investimento_total =
      ((selecionados U xv).map (fun a => a.preco_atual * yv a.ticker)).sum := by
    rw [hinv, carteira_investimentos hsat]
  have htotpos : 0 < sol.investimento_total := by
    rw [hselsum]
    exact total_positivo hsat hpos hne
  have htotfull : sol.investimento_total = invSum U yv := by
    rw [hselsum]
    exact sel_sum_eq_full hsat _ fun a ha h0 => by rw [h0, mul_zero]
  have hrissum := sel_sum_eq_full hsat
    (fun a => a.desvio_padrao * a.preco_atual * yv a.ticker)
    fun a ha h0 => by simp only [h0, mul_zero]
  have hretsum := sel_sum_eq_full hsat
    (fun a => a.retorno_esperado * a.preco_atual * yv a.ticker)
    fun a ha h0 => by simp only [h0, mul_zero]
  obtain ⟨hbin, hint, hbud, hrisk, hretc, hLmin, hLmax, hdiv, hcap, hneg, hcons⟩ :=
    hsat
  refine ⟨?_, ?_, ?_, ?_, ?_⟩
  · rw [hnum, ← hcard]
    exact hLmin
  · rw [hnum, ← hcard]
    exact hLmax
  · rw [htotfull]
    exact hbud
  · rw [hris, if_pos htotpos, hrissum, div_le_iff₀ htotpos, htotfull]
    show riscoSum U yv ≤ P.risco_maximo * invSum U yv
    linarith [hrisk]
  · rw [hret, if_pos htotpos, hretsum, le_div_iff₀ htotpos, htotfull]
    show P.retorno_minimo * invSum U yv ≤ retSum U yv
    linarith [hretc]

end Otimizador

namespace Otimizador

/-- C5: on a solved model with non-empty selection (and positive prices),
the extractor reports `investimento_total = Σ round(y_i)·preco_i` and
`num_ativos = #selected` over the selected assets, and its weighted return
and risk equal the true ratios `Σ μ_i·preco_i·round(y_i) / total` and
`Σ σ_i·preco_i·round(y_i) / total`, with the realized (rounded) quantities
of the line items in the numerators. -/
theorem claim_C5_extractor_reports_true_ratios {P : Params} {U : List Ativo}
    {xv yv zv : String → ℚ} {sol : Solucao}
    (hsat : SatisfiesModel P U xv yv zv)
    (hpos : ∀ a ∈ U, 0 < a.preco_atual)
    (hok : extrairSolucao U xv yv = .ok sol) :
    sol.investimento_total =
      ((selecionados U xv).map
        (fun a => (pyRound (yv a.ticker) : ℚ) * a.preco_atual)).sum ∧
    sol.num_ativos = (selecionados U xv).length ∧
    sol.retorno_total =
      ((selecionados U xv).map
        (fun a => a.retorno_esperado * a.preco_atual *
          (pyRound (yv a.ticker) : ℚ))).sum / sol.investimento_total ∧
    sol.risco_total =
      ((selecionados U xv).map
        (fun a => a.desvio_padrao * a.preco_atual *
          (pyRound (yv a.ticker) : ℚ))).sum / sol.investimento_total := by
  obtain ⟨hne, hnum, hinv, hret, hris⟩ := extrairSolucao_eq_ok hok
  have hselsum : sol.investimento_total =
      ((selecionados U xv).map (fun a => a.preco_atual * yv a.ticker)).sum := by
    rw [hinv, carteira_investimentos hsat]
  have htotpos : 0 < sol.investimento_total := by
    rw [hselsum]
    exact total_positivo hsat hpos hne
  have hroundmap : ∀ g : Ativo → ℚ,
      (selecionados U xv).map
          (fun a => g a * (pyRound (yv a.ticker) : ℚ)) =
        (selecionados U xv).map (fun a => g a * yv a.ticker) := by
    intro g
    refine List.map_congr_left fun a ha => ?_
    have hden := (hsat.2.1 a ((List.mem_filter.mp ha).1)).2
    rw [pyRound_den_one hden]
  refine ⟨?_, hnum, ?_, ?_⟩
  · rw [hinv, List.map_map]
    exact congrArg List.sum
      (List.map_congr_left fun a ha => by simp only [Function.comp, itemDe])
  · rw [hret, if_pos htotpos, hroundmap fun a => a.retorno_esperado * a.preco_atual]
  · rw [hris, if_pos htotpos, hroundmap fun a => a.desvio_padrao * a.preco_atual]

/-- C7: in every assignment satisfying the model's constraints, with the
big-M value at least 1, each asset is selected (`x = 1`) exactly when its
lot count is at least 1, and unselected (`x = 0`) exactly when its lot
count is 0 — the coupling enforced by `y ≤ max_lotes·x` and `y ≥ x`. -/
theorem claim_C7_selection_quantity_coupling {P : Params} {U : List Ativo}
    {xv yv zv : String → ℚ}
    (hsat : SatisfiesModel P U xv yv zv)
    (_hM : 1 ≤ maxLotes P.orcamento U) :
    ∀ a ∈ U, (xv a.ticker = 1 ↔ 1 ≤ yv a.ticker) ∧
      (xv a.ticker = 0 ↔ yv a.ticker = 0) := by
  intro a ha
  have hbin := hsat.1
  have hint := hsat.2.1
  obtain ⟨hmax, hmin⟩ := hsat.2.2.2.2.2.2.2.2.2.2 a ha
  constructor
  · constructor
    · intro h1
      rw [h1, mul_one] at hmin
      exact hmin
    · intro hy1
      rcases hbin a ha with h0 | h1
      · rw [h0, mul_zero] at hmax
        linarith
      · exact h1
  · constructor
    · intro h0
      rw [h0, mul_zero] at hmax
      exact le_antisymm hmax (hint a ha).1
    · intro hy0
      rcases hbin a ha with h0 | h1
      · exact h0
      · rw [h1, mul_one] at hmin
        rw [hy0] at hmin
        linarith

end Otimizador

namespace Otimizador

lemma minPreco_le : ∀ (U : List Ativo), ∀ a ∈ U, minPreco U ≤ a.preco_atual
  | [], a, ha => absurd ha (List.not_mem_nil a)
  | [b], a, ha => by
    rcases List.mem_singleton.mp ha with rfl
    exact le_refl _
  | b :: c :: t, a, ha => by
    rcases List.mem_cons.mp ha with rfl | ha2
    · exact min_le_left _ _
    · exact le_trans (min_le_right _ _) (minPreco_le (c :: t) a ha2)

lemma minPreco_pos : ∀ (U : List Ativo), U ≠ [] →
    (∀ a ∈ U, 0 < a.preco_atual) → 0 < minPreco U
  | [], hne, _ => absurd rfl hne
  | [b], _, hpos => hpos b (List.mem_singleton_self b)
  | b :: c :: t, _, hpos => by
    refine lt_min (hpos b (List.mem_cons_self b _)) ?_
    exact minPreco_pos (c :: t) (by simp) fun a ha =>
      hpos a (List.mem_cons_of_mem b ha)

/-- C6: for a non-empty universe with positive prices and a nonnegative
budget, the global big-M `max_lotes = int(B / min(preco))` is at least
`⌊B / preco_i⌋` for every asset `i`: the consistency constraint
`y_i ≤ max_lotes·x_i` never cuts off a lot count affordable within the
budget for any single asset. -/
theorem claim_C6_bigM_sufficient {B : ℚ} {U : List Ativo}
    (hne : U ≠ []) (hpos : ∀ a ∈ U, 0 < a.preco_atual) (hB : 0 ≤ B) :
    ∀ a ∈ U, Int.floor (B / a.preco_atual) ≤ maxLotes B U := by
  intro a ha
  have hmp : 0 < minPreco U := minPreco_pos U hne hpos
  have hap : 0 < a.preco_atual := hpos a ha
  have hdiv : B / a.preco_atual ≤ B / minPreco U := by
    rw [div_le_div_iff₀ hap hmp]
    exact mul_le_mul_of_nonneg_left (minPreco_le U a ha) hB
  have hq : 0 ≤ B / minPreco U := div_nonneg hB (le_of_lt hmp)
  have hml : maxLotes B U = Int.floor (B / minPreco U) := by
    unfold maxLotes pyInt
    rw [if_neg (by simpa using hne), if_neg (not_lt.mpr hq)]
  rw [hml]
  exact Int.floor_le_floor hdiv

end Otimizador

namespace Otimizador

open Config

lemma construirParams_excluir {cfg : Cfg} {P : Params}
    (h : construirParams cfg = some P) :
    P.excluir_retorno_negativo =
      getBoolD cfg "excluir_retorno_negativo" true := by
  simp only [construirParams, Option.bind_eq_bind, Option.bind_eq_some,
    Option.pure_def, Option.some.injEq] at h
  obtain ⟨B, hB, R, hR, T, hT, l, hl, m, hm, hP⟩ := h
  rw [← hP]

/-- C10: when the scenario dict has no `excluir_retorno_negativo` key — as
the moderate and aggressive presets do not — the model builder behaves as
if the exclusion were enabled (`config.get` defaults to `True`): every
satisfying assignment puts `y_i = 0` on each asset with negative expected
return. -/
theorem claim_C10_missing_key_excludes_negatives :
    (cfgLookup CENARIO_MODERADO "excluir_retorno_negativo" = none ∧
     cfgLookup CENARIO_AGRESSIVO "excluir_retorno_negativo" = none) ∧
    ∀ (cfg : Cfg) (P : Params) (U : List Ativo) (xv yv zv : String → ℚ),
      cfgLookup cfg "excluir_retorno_negativo" = none →
      construirParams cfg = some P →
      SatisfiesModel P U xv yv zv →
      ∀ a ∈ U, a.retorno_esperado < 0 → yv a.ticker = 0 := by
  refine ⟨⟨rfl, rfl⟩, ?_⟩
  intro cfg P U xv yv zv hlk hP hsat a ha hneg
  have hex : P.excluir_retorno_negativo = true := by
    rw [construirParams_excluir hP]
    unfold getBoolD
    rw [hlk]
  exact hsat.2.2.2.2.2.2.2.2.2.1 hex a ha hneg

end Otimizador

namespace Exemplos

open Config Metricas Otimizador

lemma selPadrao : selecionados universoPadrao xvPadrao = [ativoLucro] := by
  unfold selecionados universoPadrao
  rw [List.filter_cons, List.filter_cons, List.filter_nil]
  simp [xvPadrao, ativoLucro, ativoQueda]
  norm_num

lemma extrairPadrao :
    extrairSolucao universoPadrao xvPadrao yvPadrao = .ok solPadrao := by
  unfold extrairSolucao
  rw [selPadrao]
  simp [itemDe, pyRound, yvPadrao, ativoLucro, solPadrao]

lemma satisfazPadrao :
    SatisfiesModel paramsPadrao universoPadrao xvPadrao yvPadrao zeroAssign := by
  refine ⟨?_, ?_, ?_, ?_, ?_, ?_, ?_, ?_, ?_, ?_, ?_⟩ <;>
    simp [universoPadrao, ativoLucro, ativoQueda, xvPadrao, yvPadrao, zeroAssign,
      paramsPadrao, invSum, retSum, riscoSum, cardSum, maxLotes, minPreco, pyInt,
      setoresDe, invSetor, ativosSetor] <;>
    norm_num

lemma precosPadrao : ∀ a ∈ universoPadrao, 0 < a.preco_atual := by
  intro a ha
  rcases List.mem_cons.mp ha with rfl | ha2
  · norm_num [ativoLucro]
  · rcases List.mem_singleton.mp ha2 with rfl
    norm_num [ativoQueda]

lemma satisfazSetorial :
    SatisfiesModel paramsSetorial universoSetorial xvSetorial yvSetorial
      umAssign := by
  refine ⟨?_, ?_, ?_, ?_, ?_, ?_, ?_, ?_, ?_, ?_, ?_⟩ <;>
    simp [universoSetorial, ativoFinanceiro, ativoEnergia, xvSetorial,
      yvSetorial, umAssign, paramsSetorial, invSum, retSum, riscoSum, cardSum,
      maxLotes, minPreco, pyInt, setoresDe, invSetor, ativosSetor,
      List.filter] <;>
    norm_num

lemma satisfazFolgado :
    SatisfiesModel paramsFolgado universoPrejuizo zeroAssign zeroAssign
      zeroAssign := by
  refine ⟨?_, ?_, ?_, ?_, ?_, ?_, ?_, ?_, ?_, ?_, ?_⟩ <;>
    simp [universoPrejuizo, ativoPrejuizo, zeroAssign, paramsFolgado, invSum,
      retSum, riscoSum, cardSum, maxLotes, minPreco, pyInt, setoresDe,
      invSetor, ativosSetor]

lemma extrairVazio :
    extrairSolucao universoPrejuizo zeroAssign zeroAssign =
      .error "KeyError: investimento" := by
  have hsel : selecionados universoPrejuizo zeroAssign = [] := by
    simp [selecionados, universoPrejuizo, zeroAssign]
  simp [extrairSolucao, hsel]

lemma setorContagem :
    ((setoresDe universoSetorial).filter
      (fun s => invSetor universoSetorial yvSetorial s > 0)).length = 1 := by
  simp [setoresDe, universoSetorial, ativoFinanceiro, ativoEnergia, invSetor,
    ativosSetor, invSum, yvSetorial, List.filter]

end Exemplos

namespace Otimizador

open Exemplos

/-- C2: the model built by `construir_modelo` does not force the number of
sectors that actually carry investment to reach `num_setores_min` when
`alpha_setor_min = 0`: on a two-sector universe with `num_setores_min = 2`,
the assignment investing only in one sector but setting both `z_setor`
variables to 1 satisfies every constraint of the model (including every
sector cap), yet only one sector has nonzero investment.  The constraint
`investimento_setor ≤ B·z_setor` forces `z = 1` on invested sectors but
lets `z = 1` on empty ones, so `Σ z ≥ num_setores_min` does not deliver
the "at least `num_setores_min` different sectors" the source comments
promise. -/
theorem claim_C2_sector_count_not_enforced :
    construirParams cfgSetorial = some paramsSetorial ∧
    SatisfiesModel paramsSetorial universoSetorial xvSetorial yvSetorial
      umAssign ∧
    paramsSetorial.num_setores_min = 2 ∧
    ((setoresDe universoSetorial).filter
      (fun s => invSetor universoSetorial yvSetorial s > 0)).length = 1 :=
  ⟨rfl, satisfazSetorial, rfl, setorContagem⟩

/-- C3: `extrair_solucao` on a solved model in which no asset is selected
does not return the zero-metric result the spec promises: with an empty
selection, `carteira` is empty, `pd.DataFrame([])` has no columns, and the
very first column access `df_carteira["investimento"]` raises a
`KeyError` before any ratio (and its `if investimento_total > 0` guard) is
ever evaluated.  The all-zero assignment shown here satisfies the model of
`paramsFolgado` over `universoPrejuizo` (it is the only feasible point, so
the solver returns it as `OPTIMAL`), yet extraction errors out. -/
theorem claim_C3_empty_selection_raises :
    SatisfiesModel paramsFolgado universoPrejuizo zeroAssign zeroAssign
      zeroAssign ∧
    extrairSolucao universoPrejuizo zeroAssign zeroAssign =
      .error "KeyError: investimento" :=
  ⟨satisfazFolgado, extrairVazio⟩

end Otimizador

namespace Exemplos

open Config Metricas Otimizador

lemma maxLotesPadrao : maxLotes paramsPadrao.orcamento universoPadrao = 100 := by
  norm_num [maxLotes, universoPadrao, minPreco, ativoLucro, ativoQueda, pyInt,
    paramsPadrao]

lemma lucroMem : ativoLucro ∈ universoPadrao := List.mem_cons_self _ _

end Exemplos

namespace Otimizador

open Exemplos

/-- Concrete instance of C1 on the two-asset fixture. -/
theorem claim_C1_result_bounds_witness :
    paramsPadrao.num_ativos_min ≤ (solPadrao.num_ativos : ℚ) ∧
    (solPadrao.num_ativos : ℚ) ≤ paramsPadrao.num_ativos_max ∧
    solPadrao.investimento_total ≤ paramsPadrao.orcamento ∧
    solPadrao.risco_total ≤ paramsPadrao.risco_maximo ∧
    paramsPadrao.retorno_minimo ≤ solPadrao.retorno_total :=
  claim_C1_result_bounds satisfazPadrao precosPadrao extrairPadrao

/-- Concrete instance of C5 on the two-asset fixture. -/
theorem claim_C5_extractor_reports_true_ratios_witness :
    solPadrao.investimento_total =
      ((selecionados universoPadrao xvPadrao).map
        (fun a => (pyRound (yvPadrao a.ticker) : ℚ) * a.preco_atual)).sum ∧
    solPadrao.num_ativos = (selecionados universoPadrao xvPadrao).length ∧
    solPadrao.retorno_total =
      ((selecionados universoPadrao xvPadrao).map
        (fun a => a.retorno_esperado * a.preco_atual *
          (pyRound (yvPadrao a.ticker) : ℚ))).sum / solPadrao.investimento_total ∧
    solPadrao.risco_total =
      ((selecionados universoPadrao xvPadrao).map
        (fun a => a.desvio_padrao * a.preco_atual *
          (pyRound (yvPadrao a.ticker) : ℚ))).sum / solPadrao.investimento_total :=
  claim_C5_extractor_reports_true_ratios satisfazPadrao precosPadrao
    extrairPadrao

/-- Concrete instance of C6 on the two-asset fixture. -/
theorem claim_C6_bigM_sufficient_witness :
    Int.floor ((1000 : ℚ) / ativoLucro.preco_atual) ≤
      maxLotes 1000 universoPadrao :=
  claim_C6_bigM_sufficient (by simp [universoPadrao]) precosPadrao
    (by norm_num) ativoLucro lucroMem

/-- Concrete instance of C7 on the two-asset fixture. -/
theorem claim_C7_selection_quantity_coupling_witness :
    (xvPadrao ativoLucro.ticker = 1 ↔ 1 ≤ yvPadrao ativoLucro.ticker) ∧
    (xvPadrao ativoLucro.ticker = 0 ↔ yvPadrao ativoLucro.ticker = 0) :=
  claim_C7_selection_quantity_coupling satisfazPadrao
    (by rw [maxLotesPadrao]; norm_num) ativoLucro lucroMem

end Otimizador

namespace Config

/-- C9 counterexample: the three presets do not share one field shape —
the negative-return exclusion key `excluir_retorno_negativo` is present in
the conservative preset and absent from the moderate and aggressive
ones. -/
theorem claim_C9_counterexample :
    "excluir_retorno_negativo" ∈ cfgKeys CENARIO_CONSERVADOR ∧
    "excluir_retorno_negativo" ∉ cfgKeys CENARIO_MODERADO ∧
    "excluir_retorno_negativo" ∉ cfgKeys CENARIO_AGRESSIVO := by
  refine ⟨?_, ?_, ?_⟩ <;> decide

/-- C9 (amended): the moderate and aggressive presets have the identical
key set; the conservative preset has exactly those keys plus the
negative-return exclusion flag, which the other two omit. -/
theorem claim_C9_amended_key_shape :
    cfgKeys CENARIO_MODERADO = cfgKeys CENARIO_AGRESSIVO ∧
    cfgKeys CENARIO_CONSERVADOR =
      cfgKeys CENARIO_MODERADO ++ ["excluir_retorno_negativo"] := by
  exact ⟨rfl, rfl⟩

end Config

namespace Metricas

open Exemplos

lemma mediaConstante :
    mediaColuna tickerConstante.retornos = .fin (1 / 100) := by
  simp [mediaColuna, tickerConstante, obs, meanQ]

lemma varConstante : varColuna tickerConstante.retornos = .fin 0 := by
  simp [varColuna, tickerConstante, obs, meanQ]

lemma linhaConstanteEval :
    linhaMetrica tickerConstante =
      { ticker := "DDDD3"
        retorno_esperado := .fin (252 / 100)
        desvio_padrao_sq := .fin 0
        sharpe_ratio := .pinf
        preco_atual := some 10
        volume_medio := some 50000
        nome_empresa := "Empresa D" } := by
  unfold linhaMetrica retornoEsperado desvioPadraoSq
  rw [mediaConstante, varConstante]
  simp [PFloat.divF, tickerConstante]
  norm_num

lemma calcConstante :
    calcularMetricas [tickerConstante] = [linhaMetrica tickerConstante] := by
  unfold calcularMetricas
  rw [List.map_cons, List.map_nil, List.filter_cons, List.filter_nil]
  rw [if_pos]
  rw [linhaConstanteEval]
  simp [linhaCompleta, PFloat.isNaN]

lemma varColuna_nan_or_nonneg (xs : List (Option ℚ)) :
    varColuna xs = .nan ∨ ∃ v, varColuna xs = .fin v ∧ 0 ≤ v := by
  unfold varColuna
  by_cases h : (obs xs).length < 2
  · left
    rw [if_pos h]
  · right
    rw [if_neg h]
    refine ⟨_, rfl, ?_⟩
    apply div_nonneg
    · apply List.sum_nonneg
      intro x hx
      obtain ⟨y, hy, rfl⟩ := List.mem_map.mp hx
      positivity
    · have h2 : 2 ≤ (obs xs).length := not_lt.mp h
      have h2q : (2 : ℚ) ≤ ((obs xs).length : ℚ) := by exact_mod_cast h2
      linarith

/-- C4 counterexample: a ticker whose two daily log returns are equal and
nonzero (zero variance, mean `1/100`) is NOT dropped by
`calcular_metricas`: its volatility is exactly 0 and its Sharpe ratio is
+inf, which `dropna` does not remove, so the row appears in the output —
against the claim that every retained row has volatility > 0. -/
theorem claim_C4_counterexample :
    calcularMetricas [tickerConstante] = [linhaMetrica tickerConstante] ∧
    (linhaMetrica tickerConstante).desvio_padrao_sq = .fin 0 ∧
    (linhaMetrica tickerConstante).sharpe_ratio = .pinf := by
  refine ⟨calcConstante, ?_, ?_⟩ <;> rw [linhaConstanteEval]

/-- C4 (amended): every row retained after `calcular_metricas`'s `dropna`
has a defined (non-NaN), nonnegative volatility — but not a strictly
positive one: a ticker whose returns have zero variance and nonzero mean
gets a Sharpe ratio of ±inf, which `dropna` does not drop, so it is
retained with volatility 0 (second conjunct, at `tickerConstante`). -/
theorem claim_C4_volatility_defined_nonneg :
    (∀ (tds : List TickerData), ∀ m ∈ calcularMetricas tds,
      m.desvio_padrao_sq.isNaN = false ∧
      ∃ v, m.desvio_padrao_sq = .fin v ∧ 0 ≤ v) ∧
    (linhaMetrica tickerConstante ∈ calcularMetricas [tickerConstante] ∧
      (linhaMetrica tickerConstante).desvio_padrao_sq = .fin 0) := by
  constructor
  · intro tds m hm
    obtain ⟨hmem, hc⟩ := List.mem_filter.mp hm
    obtain ⟨td, htd, rfl⟩ := List.mem_map.mp hmem
    have hnan : (linhaMetrica td).desvio_padrao_sq.isNaN = false := by
      unfold linhaCompleta at hc
      simp only [Bool.and_eq_true, Bool.not_eq_true'] at hc
      exact hc.1.1.1.2
    refine ⟨hnan, ?_⟩
    have hd : (linhaMetrica td).desvio_padrao_sq =
        desvioPadraoSq td.retornos := rfl
    rcases varColuna_nan_or_nonneg td.retornos with hv | ⟨v, hv, hvnn⟩
    · rw [hd] at hnan
      unfold desvioPadraoSq at hnan
      rw [hv] at hnan
      simp [PFloat.isNaN] at hnan
    · rw [hd]
      unfold desvioPadraoSq
      rw [hv]
      exact ⟨252 * v, rfl, by positivity⟩
  · constructor
    · rw [calcConstante]
      exact List.mem_singleton_self _
    · rw [linhaConstanteEval]

end Metricas

namespace Cotahist

lemma slice_mid {s : String} (pre mid post : List Char) {a b : ℕ}
    (hs : s.data = pre ++ (mid ++ post)) (ha : pre.length = a)
    (hb : mid.length = b - a) : pySlice s a b = ⟨mid⟩ := by
  subst ha
  unfold pySlice
  rw [hs, List.drop_left, ← hb, List.take_left]

lemma parseUnsigned_none_of_bad {cs : List Char} {c : Char} (hc : c ∈ cs)
    (hdig : c.isDigit = false) (hdot : c ≠ '.') : parseUnsigned cs = none := by
  have hcr : c ∈ cs.dropWhile Char.isDigit := by
    have hsplit := List.takeWhile_append_dropWhile (p := Char.isDigit) (l := cs)
    rcases List.mem_append.mp (by rw [hsplit]; exact hc) with h | h
    · have := List.mem_takeWhile_imp h
      rw [hdig] at this
      exact absurd this (by simp)
    · exact h
  unfold parseUnsigned
  split
  · rename_i heq
    rw [heq] at hcr
    exact absurd hcr (List.not_mem_nil c)
  · rename_i r2 heq
    rw [heq] at hcr
    have hcr2 : c ∈ r2 := by
      rcases List.mem_cons.mp hcr with h | h
      · exact absurd h hdot
      · exact h
    have hc3 : c ∈ r2.dropWhile Char.isDigit := by
      have hsplit := List.takeWhile_append_dropWhile (p := Char.isDigit) (l := r2)
      rcases List.mem_append.mp (by rw [hsplit]; exact hcr2) with h | h
      · have := List.mem_takeWhile_imp h
        rw [hdig] at this
        exact absurd this (by simp)
      · exact h
    have hne : (r2.dropWhile Char.isDigit).isEmpty = false := by
      rcases hr3 : r2.dropWhile Char.isDigit with _ | ⟨d, t⟩
      · rw [hr3] at hc3
        exact absurd hc3 (List.not_mem_nil c)
      · rfl
    rw [hne]
    simp
  · rfl

lemma toNumericQ_none_of_bad {s : String} {c : Char} (hc : c ∈ s.data)
    (hdig : c.isDigit = false) (hdot : c ≠ '.') (hminus : c ≠ '-')
    (hplus : c ≠ '+') : toNumericQ s = none := by
  unfold toNumericQ
  split
  · rename_i t heq
    rw [heq] at hc
    rcases List.mem_cons.mp hc with h | h
    · exact absurd h hminus
    · rw [parseUnsigned_none_of_bad h hdig hdot]
      rfl
  · rename_i t heq
    rw [heq] at hc
    rcases List.mem_cons.mp hc with h | h
    · exact absurd h hplus
    · exact parseUnsigned_none_of_bad h hdig hdot
  · exact parseUnsigned_none_of_bad hc hdig hdot

end Cotahist

namespace Cotahist

/-- C8: a well-formed tape line — record type `01` followed by the 25
fixed-width field chunks of the COTAHIST schema — decodes to exactly one
record whose every field is the whitespace-trimmed substring at the
schema-fixed offsets, with each of the five price fields and the volume
field equal to the `to_numeric`-parsed value divided by 100 (and the two
count fields parsed unscaled); and (second conjunct) any field content
containing a character that is not a digit, a decimal point or a sign
coerces to the undefined value `none` instead of raising. -/
theorem claim_C8_tape_line_roundtrip
    (f1 f2 f3 f4 f5 f6 f7 f8 f9 f10 f11 f12 f13 f14 f15 f16 f17 f18 f19 f20 f21 f22 f23 f24 f25 : List Char)
    (h1 : f1.length = 8) (h2 : f2.length = 2) (h3 : f3.length = 12)
    (h4 : f4.length = 3) (h5 : f5.length = 12) (h6 : f6.length = 10)
    (h7 : f7.length = 3) (h8 : f8.length = 4) (h9 : f9.length = 13)
    (h10 : f10.length = 13) (h11 : f11.length = 13) (h12 : f12.length = 13)
    (h13 : f13.length = 13) (h14 : f14.length = 13) (h15 : f15.length = 13)
    (h16 : f16.length = 5) (h17 : f17.length = 18) (h18 : f18.length = 18)
    (h19 : f19.length = 13) (h20 : f20.length = 1) (h21 : f21.length = 8)
    (h22 : f22.length = 7) (h23 : f23.length = 13) (h24 : f24.length = 12)
    (h25 : f25.length = 3) :
    (processarCotahist [⟨'0' :: '1' :: (f1 ++ f2 ++ f3 ++ f4 ++ f5 ++ f6 ++ f7 ++ f8 ++ f9 ++ f10 ++ f11 ++ f12 ++ f13 ++ f14 ++ f15 ++ f16 ++ f17 ++ f18 ++ f19 ++ f20 ++ f21 ++ f22 ++ f23 ++ f24 ++ f25)⟩] =
      [{ tipo_registro := "01"
         data_pregao := pyStrip ⟨f1⟩
         cod_bdi := pyStrip ⟨f2⟩
         ticker := pyStrip ⟨f3⟩
         tipo_mercado := pyStrip ⟨f4⟩
         nome_empresa := pyStrip ⟨f5⟩
         especificacao := pyStrip ⟨f6⟩
         prazo_dias := pyStrip ⟨f7⟩
         moeda := pyStrip ⟨f8⟩
         preco_abertura := (toNumericQ (pyStrip ⟨f9⟩)).map (· / 100)
         preco_maximo := (toNumericQ (pyStrip ⟨f10⟩)).map (· / 100)
         preco_minimo := (toNumericQ (pyStrip ⟨f11⟩)).map (· / 100)
         preco_medio := (toNumericQ (pyStrip ⟨f12⟩)).map (· / 100)
         preco_ultimo := (toNumericQ (pyStrip ⟨f13⟩)).map (· / 100)
         preco_melhor_compra := pyStrip ⟨f14⟩
         preco_melhor_venda := pyStrip ⟨f15⟩
         total_negocios := toNumericQ (pyStrip ⟨f16⟩)
         quantidade_negociada := toNumericQ (pyStrip ⟨f17⟩)
         volume_total := (toNumericQ (pyStrip ⟨f18⟩)).map (· / 100)
         preco_exercicio := pyStrip ⟨f19⟩
         indicador_correcao := pyStrip ⟨f20⟩
         data_vencimento := pyStrip ⟨f21⟩
         fator_cotacao := pyStrip ⟨f22⟩
         preco_exercicio_pontos := pyStrip ⟨f23⟩
         isin := pyStrip ⟨f24⟩
         distribuicao := pyStrip ⟨f25⟩ }]) ∧
    ∀ (s : String) (c : Char), c ∈ s.data → c.isDigit = false → c ≠ '.' →
      c ≠ '-' → c ≠ '+' → toNumericQ s = none := by
  refine ⟨?_, fun s c hc hd hdot hm hp => toNumericQ_none_of_bad hc hd hdot hm hp⟩
  set linha : String := ⟨'0' :: '1' :: (f1 ++ f2 ++ f3 ++ f4 ++ f5 ++ f6 ++ f7 ++ f8 ++ f9 ++ f10 ++ f11 ++ f12 ++ f13 ++ f14 ++ f15 ++ f16 ++ f17 ++ f18 ++ f19 ++ f20 ++ f21 ++ f22 ++ f23 ++ f24 ++ f25)⟩ with hl
  have e0 : pySlice linha 0 2 = ⟨['0', '1']⟩ := by
    refine slice_mid [] ['0', '1'] (f1 ++ f2 ++ f3 ++ f4 ++ f5 ++ f6 ++ f7 ++ f8 ++ f9 ++ f10 ++ f11 ++ f12 ++ f13 ++ f14 ++ f15 ++ f16 ++ f17 ++ f18 ++ f19 ++ f20 ++ f21 ++ f22 ++ f23 ++ f24 ++ f25) ?_ rfl rfl
    rw [hl]
    simp [List.append_assoc]
  have e1 : pySlice linha 2 10 = ⟨f1⟩ := by
    refine slice_mid (['0', '1']) f1 (f2 ++ f3 ++ f4 ++ f5 ++ f6 ++ f7 ++ f8 ++ f9 ++ f10 ++ f11 ++ f12 ++ f13 ++ f14 ++ f15 ++ f16 ++ f17 ++ f18 ++ f19 ++ f20 ++ f21 ++ f22 ++ f23 ++ f24 ++ f25) ?_ ?_ ?_
    · rw [hl]
      simp [List.append_assoc]
    · simp
    · simp [h1]
  have e2 : pySlice linha 10 12 = ⟨f2⟩ := by
    refine slice_mid (['0', '1'] ++ f1) f2 (f3 ++ f4 ++ f5 ++ f6 ++ f7 ++ f8 ++ f9 ++ f10 ++ f11 ++ f12 ++ f13 ++ f14 ++ f15 ++ f16 ++ f17 ++ f18 ++ f19 ++ f20 ++ f21 ++ f22 ++ f23 ++ f24 ++ f25) ?_ ?_ ?_
    · rw [hl]
      simp [List.append_assoc]
    · simp [h1]
    · simp [h2]
  have e3 : pySlice linha 12 24 = ⟨f3⟩ := by
    refine slice_mid (['0', '1'] ++ f1 ++ f2) f3 (f4 ++ f5 ++ f6 ++ f7 ++ f8 ++ f9 ++ f10 ++ f11 ++ f12 ++ f13 ++ f14 ++ f15 ++ f16 ++ f17 ++ f18 ++ f19 ++ f20 ++ f21 ++ f22 ++ f23 ++ f24 ++ f25) ?_ ?_ ?_
    · rw [hl]
      simp [List.append_assoc]
    · simp [h1, h2]
    · simp [h3]
  have e4 : pySlice linha 24 27 = ⟨f4⟩ := by
    refine slice_mid (['0', '1'] ++ f1 ++ f2 ++ f3) f4 (f5 ++ f6 ++ f7 ++ f8 ++ f9 ++ f10 ++ f11 ++ f12 ++ f13 ++ f14 ++ f15 ++ f16 ++ f17 ++ f18 ++ f19 ++ f20 ++ f21 ++ f22 ++ f23 ++ f24 ++ f25) ?_ ?_ ?_
    · rw [hl]
      simp [List.append_assoc]
    · simp [h1, h2, h3]
    · simp [h4]
  have e5 : pySlice linha 27 39 = ⟨f5⟩ := by
    refine slice_mid (['0', '1'] ++ f1 ++ f2 ++ f3 ++ f4) f5 (f6 ++ f7 ++ f8 ++ f9 ++ f10 ++ f11 ++ f12 ++ f13 ++ f14 ++ f15 ++ f16 ++ f17 ++ f18 ++ f19 ++ f20 ++ f21 ++ f22 ++ f23 ++ f24 ++ f25) ?_ ?_ ?_
    · rw [hl]
      simp [List.append_assoc]
    · simp [h1, h2, h3, h4]
    · simp [h5]
  have e6 : pySlice linha 39 49 = ⟨f6⟩ := by
    refine slice_mid (['0', '1'] ++ f1 ++ f2 ++ f3 ++ f4 ++ f5) f6 (f7 ++ f8 ++ f9 ++ f10 ++ f11 ++ f12 ++ f13 ++ f14 ++ f15 ++ f16 ++ f17 ++ f18 ++ f19 ++ f20 ++ f21 ++ f22 ++ f23 ++ f24 ++ f25) ?_ ?_ ?_
    · rw [hl]
      simp [List.append_assoc]
    · simp [h1, h2, h3, h4, h5]
    · simp [h6]
  have e7 : pySlice linha 49 52 = ⟨f7⟩ := by
    refine slice_mid (['0', '1'] ++ f1 ++ f2 ++ f3 ++ f4 ++ f5 ++ f6) f7 (f8 ++ f9 ++ f10 ++ f11 ++ f12 ++ f13 ++ f14 ++ f15 ++ f16 ++ f17 ++ f18 ++ f19 ++ f20 ++ f21 ++ f22 ++ f23 ++ f24 ++ f25) ?_ ?_ ?_
    · rw [hl]
      simp [List.append_assoc]
    · simp [h1, h2, h3, h4, h5, h6]
    · simp [h7]
  have e8 : pySlice linha 52 56 = ⟨f8⟩ := by
    refine slice_mid (['0', '1'] ++ f1 ++ f2 ++ f3 ++ f4 ++ f5 ++ f6 ++ f7) f8 (f9 ++ f10 ++ f11 ++ f12 ++ f13 ++ f14 ++ f15 ++ f16 ++ f17 ++ f18 ++ f19 ++ f20 ++ f21 ++ f22 ++ f23 ++ f24 ++ f25) ?_ ?_ ?_
    · rw [hl]
      simp [List.append_assoc]
    · simp [h1, h2, h3, h4, h5, h6, h7]
    · simp [h8]
  have e9 : pySlice linha 56 69 = ⟨f9⟩ := by
    refine slice_mid (['0', '1'] ++ f1 ++ f2 ++ f3 ++ f4 ++ f5 ++ f6 ++ f7 ++ f8) f9 (f10 ++ f11 ++ f12 ++ f13 ++ f14 ++ f15 ++ f16 ++ f17 ++ f18 ++ f19 ++ f20 ++ f21 ++ f22 ++ f23 ++ f24 ++ f25) ?_ ?_ ?_
    · rw [hl]
      simp [List.append_assoc]
    · simp [h1, h2, h3, h4, h5, h6, h7, h8]
    · simp [h9]
  have e10 : pySlice linha 69 82 = ⟨f10⟩ := by
    refine slice_mid (['0', '1'] ++ f1 ++ f2 ++ f3 ++ f4 ++ f5 ++ f6 ++ f7 ++ f8 ++ f9) f10 (f11 ++ f12 ++ f13 ++ f14 ++ f15 ++ f16 ++ f17 ++ f18 ++ f19 ++ f20 ++ f21 ++ f22 ++ f23 ++ f24 ++ f25) ?_ ?_ ?_
    · rw [hl]
      simp [List.append_assoc]
    · simp [h1, h2, h3, h4, h5, h6, h7, h8, h9]
    · simp [h10]
  have e11 : pySlice linha 82 95 = ⟨f11⟩ := by
    refine slice_mid (['0', '1'] ++ f1 ++ f2 ++ f3 ++ f4 ++ f5 ++ f6 ++ f7 ++ f8 ++ f9 ++ f10) f11 (f12 ++ f13 ++ f14 ++ f15 ++ f16 ++ f17 ++ f18 ++ f19 ++ f20 ++ f21 ++ f22 ++ f23 ++ f24 ++ f25) ?_ ?_ ?_
    · rw [hl]
      simp [List.append_assoc]
    · simp [h1, h2, h3, h4, h5, h6, h7, h8, h9, h10]
    · simp [h11]
  have e12 : pySlice linha 95 108 = ⟨f12⟩ := by
    refine slice_mid (['0', '1'] ++ f1 ++ f2 ++ f3 ++ f4 ++ f5 ++ f6 ++ f7 ++ f8 ++ f9 ++ f10 ++ f11) f12 (f13 ++ f14 ++ f15 ++ f16 ++ f17 ++ f18 ++ f19 ++ f20 ++ f21 ++ f22 ++ f23 ++ f24 ++ f25) ?_ ?_ ?_
    · rw [hl]
      simp [List.append_assoc]
    · simp [h1, h2, h3, h4, h5, h6, h7, h8, h9, h10, h11]
    · simp [h12]
  have e13 : pySlice linha 108 121 = ⟨f13⟩ := by
    refine slice_mid (['0', '1'] ++ f1 ++ f2 ++ f3 ++ f4 ++ f5 ++ f6 ++ f7 ++ f8 ++ f9 ++ f10 ++ f11 ++ f12) f13 (f14 ++ f15 ++ f16 ++ f17 ++ f18 ++ f19 ++ f20 ++ f21 ++ f22 ++ f23 ++ f24 ++ f25) ?_ ?_ ?_
    · rw [hl]
      simp [List.append_assoc]
    · simp [h1, h2, h3, h4, h5, h6, h7, h8, h9, h10, h11, h12]
    · simp [h13]
  have e14 : pySlice linha 121 134 = ⟨f14⟩ := by
    refine slice_mid (['0', '1'] ++ f1 ++ f2 ++ f3 ++ f4 ++ f5 ++ f6 ++ f7 ++ f8 ++ f9 ++ f10 ++ f11 ++ f12 ++ f13) f14 (f15 ++ f16 ++ f17 ++ f18 ++ f19 ++ f20 ++ f21 ++ f22 ++ f23 ++ f24 ++ f25) ?_ ?_ ?_
    · rw [hl]
      simp [List.append_assoc]
    · simp [h1, h2, h3, h4, h5, h6, h7, h8, h9, h10, h11, h12, h13]
    · simp [h14]
  have e15 : pySlice linha 134 147 = ⟨f15⟩ := by
    refine slice_mid (['0', '1'] ++ f1 ++ f2 ++ f3 ++ f4 ++ f5 ++ f6 ++ f7 ++ f8 ++ f9 ++ f10 ++ f11 ++ f12 ++ f13 ++ f14) f15 (f16 ++ f17 ++ f18 ++ f19 ++ f20 ++ f21 ++ f22 ++ f23 ++ f24 ++ f25) ?_ ?_ ?_
    · rw [hl]
      simp [List.append_assoc]
    · simp [h1, h2, h3, h4, h5, h6, h7, h8, h9, h10, h11, h12, h13, h14]
    · simp [h15]
  have e16 : pySlice linha 147 152 = ⟨f16⟩ := by
    refine slice_mid (['0', '1'] ++ f1 ++ f2 ++ f3 ++ f4 ++ f5 ++ f6 ++ f7 ++ f8 ++ f9 ++ f10 ++ f11 ++ f12 ++ f13 ++ f14 ++ f15) f16 (f17 ++ f18 ++ f19 ++ f20 ++ f21 ++ f22 ++ f23 ++ f24 ++ f25) ?_ ?_ ?_
    · rw [hl]
      simp [List.append_assoc]
    · simp [h1, h2, h3, h4, h5, h6, h7, h8, h9, h10, h11, h12, h13, h14, h15]
    · simp [h16]
  have e17 : pySlice linha 152 170 = ⟨f17⟩ := by
    refine slice_mid (['0', '1'] ++ f1 ++ f2 ++ f3 ++ f4 ++ f5 ++ f6 ++ f7 ++ f8 ++ f9 ++ f10 ++ f11 ++ f12 ++ f13 ++ f14 ++ f15 ++ f16) f17 (f18 ++ f19 ++ f20 ++ f21 ++ f22 ++ f23 ++ f24 ++ f25) ?_ ?_ ?_
    · rw [hl]
      simp [List.append_assoc]
    · simp [h1, h2, h3, h4, h5, h6, h7, h8, h9, h10, h11, h12, h13, h14, h15, h16]
    · simp [h17]
  have e18 : pySlice linha 170 188 = ⟨f18⟩ := by
    refine slice_mid (['0', '1'] ++ f1 ++ f2 ++ f3 ++ f4 ++ f5 ++ f6 ++ f7 ++ f8 ++ f9 ++ f10 ++ f11 ++ f12 ++ f13 ++ f14 ++ f15 ++ f16 ++ f17) f18 (f19 ++ f20 ++ f21 ++ f22 ++ f23 ++ f24 ++ f25) ?_ ?_ ?_
    · rw [hl]
      simp [List.append_assoc]
    · simp [h1, h2, h3, h4, h5, h6, h7, h8, h9, h10, h11, h12, h13, h14, h15, h16, h17]
    · simp [h18]
  have e19 : pySlice linha 188 201 = ⟨f19⟩ := by
    refine slice_mid (['0', '1'] ++ f1 ++ f2 ++ f3 ++ f4 ++ f5 ++ f6 ++ f7 ++ f8 ++ f9 ++ f10 ++ f11 ++ f12 ++ f13 ++ f14 ++ f15 ++ f16 ++ f17 ++ f18) f19 (f20 ++ f21 ++ f22 ++ f23 ++ f24 ++ f25) ?_ ?_ ?_
    · rw [hl]
      simp [List.append_assoc]
    · simp [h1, h2, h3, h4, h5, h6, h7, h8, h9, h10, h11, h12, h13, h14, h15, h16, h17, h18]
    · simp [h19]
  have e20 : pySlice linha 201 202 = ⟨f20⟩ := by
    refine slice_mid (['0', '1'] ++ f1 ++ f2 ++ f3 ++ f4 ++ f5 ++ f6 ++ f7 ++ f8 ++ f9 ++ f10 ++ f11 ++ f12 ++ f13 ++ f14 ++ f15 ++ f16 ++ f17 ++ f18 ++ f19) f20 (f21 ++ f22 ++ f23 ++ f24 ++ f25) ?_ ?_ ?_
    · rw [hl]
      simp [List.append_assoc]
    · simp [h1, h2, h3, h4, h5, h6, h7, h8, h9, h10, h11, h12, h13, h14, h15, h16, h17, h18, h19]
    · simp [h20]
  have e21 : pySlice linha 202 210 = ⟨f21⟩ := by
    refine slice_mid (['0', '1'] ++ f1 ++ f2 ++ f3 ++ f4 ++ f5 ++ f6 ++ f7 ++ f8 ++ f9 ++ f10 ++ f11 ++ f12 ++ f13 ++ f14 ++ f15 ++ f16 ++ f17 ++ f18 ++ f19 ++ f20) f21 (f22 ++ f23 ++ f24 ++ f25) ?_ ?_ ?_
    · rw [hl]
      simp [List.append_assoc]
    · simp [h1, h2, h3, h4, h5, h6, h7, h8, h9, h10, h11, h12, h13, h14, h15, h16, h17, h18, h19, h20]
    · simp [h21]
  have e22 : pySlice linha 210 217 = ⟨f22⟩ := by
    refine slice_mid (['0', '1'] ++ f1 ++ f2 ++ f3 ++ f4 ++ f5 ++ f6 ++ f7 ++ f8 ++ f9 ++ f10 ++ f11 ++ f12 ++ f13 ++ f14 ++ f15 ++ f16 ++ f17 ++ f18 ++ f19 ++ f20 ++ f21) f22 (f23 ++ f24 ++ f25) ?_ ?_ ?_
    · rw [hl]
      simp [List.append_assoc]
    · simp [h1, h2, h3, h4, h5, h6, h7, h8, h9, h10, h11, h12, h13, h14, h15, h16, h17, h18, h19, h20, h21]
    · simp [h22]
  have e23 : pySlice linha 217 230 = ⟨f23⟩ := by
    refine slice_mid (['0', '1'] ++ f1 ++ f2 ++ f3 ++ f4 ++ f5 ++ f6 ++ f7 ++ f8 ++ f9 ++ f10 ++ f11 ++ f12 ++ f13 ++ f14 ++ f15 ++ f16 ++ f17 ++ f18 ++ f19 ++ f20 ++ f21 ++ f22) f23 (f24 ++ f25) ?_ ?_ ?_
    · rw [hl]
      simp [List.append_assoc]
    · simp [h1, h2, h3, h4, h5, h6, h7, h8, h9, h10, h11, h12, h13, h14, h15, h16, h17, h18, h19, h20, h21, h22]
    · simp [h23]
  have e24 : pySlice linha 230 242 = ⟨f24⟩ := by
    refine slice_mid (['0', '1'] ++ f1 ++ f2 ++ f3 ++ f4 ++ f5 ++ f6 ++ f7 ++ f8 ++ f9 ++ f10 ++ f11 ++ f12 ++ f13 ++ f14 ++ f15 ++ f16 ++ f17 ++ f18 ++ f19 ++ f20 ++ f21 ++ f22 ++ f23) f24 (f25) ?_ ?_ ?_
    · rw [hl]
      simp [List.append_assoc]
    · simp [h1, h2, h3, h4, h5, h6, h7, h8, h9, h10, h11, h12, h13, h14, h15, h16, h17, h18, h19, h20, h21, h22, h23]
    · simp [h24]
  have e25 : pySlice linha 242 245 = ⟨f25⟩ := by
    refine slice_mid (['0', '1'] ++ f1 ++ f2 ++ f3 ++ f4 ++ f5 ++ f6 ++ f7 ++ f8 ++ f9 ++ f10 ++ f11 ++ f12 ++ f13 ++ f14 ++ f15 ++ f16 ++ f17 ++ f18 ++ f19 ++ f20 ++ f21 ++ f22 ++ f23 ++ f24) f25 ([]) ?_ ?_ ?_
    · rw [hl]
      simp [List.append_assoc]
    · simp [h1, h2, h3, h4, h5, h6, h7, h8, h9, h10, h11, h12, h13, h14, h15, h16, h17, h18, h19, h20, h21, h22, h23, h24]
    · simp [h25]
  have h00 : pyStartswith linha "00" = false := by rw [hl]; rfl
  have h99 : pyStartswith linha "99" = false := by rw [hl]; rfl
  have h01 : pyStartswith linha "01" = true := by rw [hl]; rfl
  have hproc : processarLinha linha = some (registroDeLinha linha) := by
    simp [processarLinha, h00, h99, h01]
  have hreg : registroDeLinha linha =
      { tipo_registro := "01" 
        data_pregao := pyStrip ⟨f1⟩
        cod_bdi := pyStrip ⟨f2⟩
        ticker := pyStrip ⟨f3⟩
        tipo_mercado := pyStrip ⟨f4⟩
        nome_empresa := pyStrip ⟨f5⟩
        especificacao := pyStrip ⟨f6⟩
        prazo_dias := pyStrip ⟨f7⟩
        moeda := pyStrip ⟨f8⟩
        preco_abertura := (toNumericQ (pyStrip ⟨f9⟩)).map (· / 100)
        preco_maximo := (toNumericQ (pyStrip ⟨f10⟩)).map (· / 100)
        preco_minimo := (toNumericQ (pyStrip ⟨f11⟩)).map (· / 100)
        preco_medio := (toNumericQ (pyStrip ⟨f12⟩)).map (· / 100)
        preco_ultimo := (toNumericQ (pyStrip ⟨f13⟩)).map (· / 100)
        preco_melhor_compra := pyStrip ⟨f14⟩
        preco_melhor_venda := pyStrip ⟨f15⟩
        total_negocios := toNumericQ (pyStrip ⟨f16⟩)
        quantidade_negociada := toNumericQ (pyStrip ⟨f17⟩)
        volume_total := (toNumericQ (pyStrip ⟨f18⟩)).map (· / 100)
        preco_exercicio := pyStrip ⟨f19⟩
        indicador_correcao := pyStrip ⟨f20⟩
        data_vencimento := pyStrip ⟨f21⟩
        fator_cotacao := pyStrip ⟨f22⟩
        preco_exercicio_pontos := pyStrip ⟨f23⟩
        isin := pyStrip ⟨f24⟩
        distribuicao := pyStrip ⟨f25⟩ } := by
    unfold registroDeLinha campoPreco campoNum campo
    rw [e0, e1, e2, e3, e4, e5, e6, e7, e8, e9, e10, e11, e12, e13, e14, e15,
      e16, e17, e18, e19, e20, e21, e22, e23, e24, e25]
    rfl
  rw [show processarCotahist [linha] = [registroDeLinha linha] from by
    simp [processarCotahist, List.filterMap_cons, hproc, sortRegs, insertReg]]
  rw [hreg]

end Cotahist

namespace Cotahist

/-- Concrete instance of C8 on a synthetic PETR4 tape line. -/
theorem claim_C8_tape_line_roundtrip_witness :
    processarCotahist
      [⟨'0' :: '1' ::
        ("20240102".data ++ "02".data ++ "PETR4       ".data ++ "010".data ++
          "PETROBRAS   ".data ++ "PN        ".data ++ "   ".data ++
          "R$  ".data ++ "0000000003550".data ++ "0000000003600".data ++
          "0000000003500".data ++ "0000000003550".data ++ "0000000003580".data ++
          "0000000003570".data ++ "0000000003590".data ++ "01234".data ++
          "000000000001000000".data ++ "000000000358000000".data ++
          "0000000000000".data ++ "0".data ++ "99991231".data ++
          "0000001".data ++ "0000000000000".data ++ "BRPETRACNPR6".data ++
          "103".data)⟩] =
      [{ tipo_registro := "01"
         data_pregao := pyStrip ⟨"20240102".data⟩
         cod_bdi := pyStrip ⟨"02".data⟩
         ticker := pyStrip ⟨"PETR4       ".data⟩
         tipo_mercado := pyStrip ⟨"010".data⟩
         nome_empresa := pyStrip ⟨"PETROBRAS   ".data⟩
         especificacao := pyStrip ⟨"PN        ".data⟩
         prazo_dias := pyStrip ⟨"   ".data⟩
         moeda := pyStrip ⟨"R$  ".data⟩
         preco_abertura := (toNumericQ (pyStrip ⟨"0000000003550".data⟩)).map (· / 100)
         preco_maximo := (toNumericQ (pyStrip ⟨"0000000003600".data⟩)).map (· / 100)
         preco_minimo := (toNumericQ (pyStrip ⟨"0000000003500".data⟩)).map (· / 100)
         preco_medio := (toNumericQ (pyStrip ⟨"0000000003550".data⟩)).map (· / 100)
         preco_ultimo := (toNumericQ (pyStrip ⟨"0000000003580".data⟩)).map (· / 100)
         preco_melhor_compra := pyStrip ⟨"0000000003570".data⟩
         preco_melhor_venda := pyStrip ⟨"0000000003590".data⟩
         total_negocios := toNumericQ (pyStrip ⟨"01234".data⟩)
         quantidade_negociada := toNumericQ (pyStrip ⟨"000000000001000000".data⟩)
         volume_total := (toNumericQ (pyStrip ⟨"000000000358000000".data⟩)).map (· / 100)
         preco_exercicio := pyStrip ⟨"0000000000000".data⟩
         indicador_correcao := pyStrip ⟨"0".data⟩
         data_vencimento := pyStrip ⟨"99991231".data⟩
         fator_cotacao := pyStrip ⟨"0000001".data⟩
         preco_exercicio_pontos := pyStrip ⟨"0000000000000".data⟩
         isin := pyStrip ⟨"BRPETRACNPR6".data⟩
         distribuicao := pyStrip ⟨"103".data⟩ }] :=
  (claim_C8_tape_line_roundtrip "20240102".data "02".data "PETR4       ".data
    "010".data "PETROBRAS   ".data "PN        ".data "   ".data "R$  ".data
    "0000000003550".data "0000000003600".data "0000000003500".data
    "0000000003550".data "0000000003580".data "0000000003570".data
    "0000000003590".data "01234".data "000000000001000000".data
    "000000000358000000".data "0000000000000".data "0".data "99991231".data
    "0000001".data "0000000000000".data "BRPETRACNPR6".data "103".data
    rfl rfl rfl rfl rfl rfl rfl rfl rfl rfl rfl rfl rfl rfl rfl rfl rfl rfl
    rfl rfl rfl rfl rfl rfl rfl).1

end Cotahist
